import Mathlib

/-!
# Verification of the movie-recommendation streaming relay (`src/server.js`)

This file shallowly embeds the `/api/movie-recommendations` request handler of
`server.js`: the message classifier (the body of the `for await` loop), the
`send` helper, the keep-alive `setInterval`/`clearInterval` lifecycle, and the
`try`/`catch`/`finally` control flow, together with the pre-stream request
validation.

JavaScript values are modelled by the inductive `JVal`; `undefined` and `null`
are identified as `JVal.null` (both are falsy, both are blocked by optional
chaining, and the claims never distinguish them).  A thrown exception is
modelled as an `Option String` carrying the error message (`err.message`);
the exact text of an engine-generated `TypeError` is engine-specific, so a
fixed descriptive string is used.
-/

/-- A JSON-like JavaScript value.  `null` stands for both `null` and
`undefined`. -/
inductive JVal where
  | null
  | boolean (b : Bool)
  | num (n : Int)
  | str (s : String)
  | arr (elems : List JVal)
  | obj (fields : List (String × JVal))

mutual
/-- Decidable equality for `JVal` (the derive handler does not support this
nested inductive). -/
def jvalDecEq : (a b : JVal) → Decidable (a = b)
  | .null, .null => isTrue rfl
  | .null, .boolean _ => isFalse (fun h => nomatch h)
  | .null, .num _ => isFalse (fun h => nomatch h)
  | .null, .str _ => isFalse (fun h => nomatch h)
  | .null, .arr _ => isFalse (fun h => nomatch h)
  | .null, .obj _ => isFalse (fun h => nomatch h)
  | .boolean _, .null => isFalse (fun h => nomatch h)
  | .boolean a, .boolean b =>
    if h : a = b then isTrue (by rw [h]) else isFalse (fun hh => by cases hh; exact h rfl)
  | .boolean _, .num _ => isFalse (fun h => nomatch h)
  | .boolean _, .str _ => isFalse (fun h => nomatch h)
  | .boolean _, .arr _ => isFalse (fun h => nomatch h)
  | .boolean _, .obj _ => isFalse (fun h => nomatch h)
  | .num _, .null => isFalse (fun h => nomatch h)
  | .num _, .boolean _ => isFalse (fun h => nomatch h)
  | .num a, .num b =>
    if h : a = b then isTrue (by rw [h]) else isFalse (fun hh => by cases hh; exact h rfl)
  | .num _, .str _ => isFalse (fun h => nomatch h)
  | .num _, .arr _ => isFalse (fun h => nomatch h)
  | .num _, .obj _ => isFalse (fun h => nomatch h)
  | .str _, .null => isFalse (fun h => nomatch h)
  | .str _, .boolean _ => isFalse (fun h => nomatch h)
  | .str _, .num _ => isFalse (fun h => nomatch h)
  | .str a, .str b =>
    if h : a = b then isTrue (by rw [h]) else isFalse (fun hh => by cases hh; exact h rfl)
  | .str _, .arr _ => isFalse (fun h => nomatch h)
  | .str _, .obj _ => isFalse (fun h => nomatch h)
  | .arr _, .null => isFalse (fun h => nomatch h)
  | .arr _, .boolean _ => isFalse (fun h => nomatch h)
  | .arr _, .num _ => isFalse (fun h => nomatch h)
  | .arr _, .str _ => isFalse (fun h => nomatch h)
  | .arr xs, .arr ys =>
    match jvalDecEqList xs ys with
    | isTrue h => isTrue (by rw [h])
    | isFalse h => isFalse (fun hh => by cases hh; exact h rfl)
  | .arr _, .obj _ => isFalse (fun h => nomatch h)
  | .obj _, .null => isFalse (fun h => nomatch h)
  | .obj _, .boolean _ => isFalse (fun h => nomatch h)
  | .obj _, .num _ => isFalse (fun h => nomatch h)
  | .obj _, .str _ => isFalse (fun h => nomatch h)
  | .obj _, .arr _ => isFalse (fun h => nomatch h)
  | .obj xs, .obj ys =>
    match jvalDecEqFields xs ys with
    | isTrue h => isTrue (by rw [h])
    | isFalse h => isFalse (fun hh => by cases hh; exact h rfl)

/-- Decidable equality for lists of `JVal`. -/
def jvalDecEqList : (a b : List JVal) → Decidable (a = b)
  | [], [] => isTrue rfl
  | [], _ :: _ => isFalse (fun h => nomatch h)
  | _ :: _, [] => isFalse (fun h => nomatch h)
  | x :: xs, y :: ys =>
    match jvalDecEq x y with
    | isFalse h => isFalse (fun hh => by cases hh; exact h rfl)
    | isTrue h1 =>
      match jvalDecEqList xs ys with
      | isTrue h2 => isTrue (by rw [h1, h2])
      | isFalse h2 => isFalse (fun hh => by cases hh; exact h2 rfl)

/-- Decidable equality for object field lists. -/
def jvalDecEqFields : (a b : List (String × JVal)) → Decidable (a = b)
  | [], [] => isTrue rfl
  | [], _ :: _ => isFalse (fun h => nomatch h)
  | _ :: _, [] => isFalse (fun h => nomatch h)
  | (k, v) :: xs, (k2, v2) :: ys =>
    if hk : k = k2 then
      match jvalDecEq v v2 with
      | isFalse h => isFalse (fun hh => by cases hh; exact h rfl)
      | isTrue h1 =>
        match jvalDecEqFields xs ys with
        | isTrue h2 => isTrue (by rw [hk, h1, h2])
        | isFalse h2 => isFalse (fun hh => by cases hh; exact h2 rfl)
    else isFalse (fun hh => by cases hh; exact hk rfl)
end

instance : DecidableEq JVal := jvalDecEq

/-- JavaScript truthiness of a value (`NaN` is not representable here;
`num` models integral numbers, which are falsy exactly at `0`). -/
def truthy : JVal → Bool
  | .null => false
  | .boolean b => b
  | .num n => n != 0
  | .str s => s != ""
  | .arr _ => true
  | .obj _ => true

/-- `typeof v === 'object'` (true for `null`, arrays and plain objects). -/
def jsTypeofObject : JVal → Bool
  | .null => true
  | .arr _ => true
  | .obj _ => true
  | _ => false

/-- Property access `v.k` on a non-null value: `some` field value, or `none`
for `undefined`.  Property access on a primitive yields `undefined` in JS
(the primitive is boxed and has no such own property). -/
def getField (v : JVal) (k : String) : Option JVal :=
  match v with
  | .obj fields => fields.lookup k
  | _ => none

/-- Optional-chained access `a?.k` where `a` is a possibly-`undefined`
value: `undefined`/`null` short-circuit to `undefined`. -/
def optGet (a : Option JVal) (k : String) : Option JVal :=
  match a with
  | none => none
  | some .null => none
  | some v => getField v k

/-- Truthiness of a possibly-`undefined` value. -/
def truthyOpt : Option JVal → Bool
  | none => false
  | some v => truthy v

/-- JavaScript `a || b` where `a` may be `undefined`: the first operand if
truthy, otherwise the second. -/
def jsOrV (a : Option JVal) (b : JVal) : JVal :=
  match a with
  | none => b
  | some v => if truthy v then v else b

mutual
/-- The string conversion JavaScript's `Array.prototype.join` applies to an
element: `null`/`undefined` render as the empty string, nested arrays render
as their comma-join, objects as `"[object Object]"`. -/
def jsToStr : JVal → String
  | .null => ""
  | .boolean b => if b then "true" else "false"
  | .num n => toString n
  | .str s => s
  | .arr xs => jsToStrList xs
  | .obj _ => "[object Object]"

/-- Comma-join of a list of values, as `Array.prototype.toString`. -/
def jsToStrList : List JVal → String
  | [] => ""
  | [x] => jsToStr x
  | x :: y :: xs => jsToStr x ++ "," ++ jsToStrList (y :: xs)
end

/-- `es.join(sep)`. -/
def jsJoin (sep : String) (es : List JVal) : String :=
  String.intercalate sep (es.map jsToStr)

/-- JavaScript `String.prototype.trim`: strip leading and trailing
whitespace. -/
def jsTrim (s : String) : String :=
  ⟨((s.data.dropWhile Char.isWhitespace).reverse.dropWhile Char.isWhitespace).reverse⟩

/-- The Client Events written as SSE `data:` frames by the handler.  Payload
fields keep the (dynamically typed) values the code puts into the frame;
`result`'s content is `Option JVal` because `msg.result` may be absent. -/
inductive Event where
  | start (message : String)
  | search (query : JVal)
  | fetch (url : JVal)
  | thinking (content : String)
  | summary (content : JVal)
  | toolProgress (toolName : JVal) (elapsed : Option JVal)
  | result (content : Option JVal)
  | error (message : String)
  | done
deriving DecidableEq

/-- Classification of one content block of an `assistant` message
(the body of the inner `for (const block of msg.message.content)` loop,
`server.js` lines 186-205).  Returns the events sent for this block and
`some errText` if processing the block throws (only possible at
`block.text?.trim()` when `text` is a truthy non-string). -/
def classifyBlock (block : JVal) : List Event × Option String :=
  if !(truthy block && jsTypeofObject block) then
    ([], none)
  else if getField block "type" == some (.str "tool_use") then
    if getField block "name" == some (.str "WebSearch") then
      let input := getField block "input"
      let query := jsOrV (optGet input "query") (jsOrV (optGet input "q") (.str ""))
      ([.search query], none)
    else if getField block "name" == some (.str "WebFetch") then
      let input := getField block "input"
      let url := jsOrV (optGet input "url") (.str "")
      ([.fetch url], none)
    else
      ([], none)
  else if getField block "type" == some (.str "text") then
    match getField block "text" with
    | none => ([], none)
    | some .null => ([], none)
    | some (.str s) =>
      -- `block.text?.trim()` truthy, then `text.length > 0 && text.length < 500`
      if jsTrim s != "" then
        if (jsTrim s).length > 0 && (jsTrim s).length < 500 then
          ([.thinking (jsTrim s)], none)
        else ([], none)
      else ([], none)
    | some _ => ([], some "TypeError: block.text.trim is not a function")
  else
    ([], none)

/-- The inner block loop over a list of blocks: events accumulate in block
order; a throw aborts the rest of the message. -/
def classifyBlocks : List JVal → List Event × Option String
  | [] => ([], none)
  | b :: bs =>
    match classifyBlock b with
    | (evs, some e) => (evs, some e)
    | (evs, none) =>
      let rest := classifyBlocks bs
      (evs ++ rest.1, rest.2)

/-- `for...of` iterability: arrays iterate their elements, strings iterate
their characters (each a one-character string); other truthy values throw. -/
def iterElems : JVal → Option (List JVal)
  | .arr xs => some xs
  | .str s => some (s.data.map fun c => .str (String.singleton c))
  | _ => none

/-- Classification of one upstream message: the body of the
`for await (const msg of runMovieAgent(...))` loop (`server.js` lines
168-219).  Returns the events sent for this message, and `some errText` if
processing the message throws. -/
def classifyMsg (msg : JVal) : List Event × Option String :=
  -- `if (!msg || typeof msg !== 'object') continue;`
  if !(truthy msg && jsTypeofObject msg) then
    ([], none)
  else if getField msg "type" == some (.str "result") then
    if getField msg "subtype" == some (.str "success") then
      ([.result (getField msg "result")], none)
    else
      -- `msg.errors?.join('; ') || 'Research encountered an error'`
      match getField msg "errors" with
      | none => ([.error "Research encountered an error"], none)
      | some .null => ([.error "Research encountered an error"], none)
      | some (.arr es) =>
        let j := jsJoin "; " es
        ([.error (if j != "" then j else "Research encountered an error")], none)
      | some _ => ([], some "TypeError: msg.errors.join is not a function")
  else if getField msg "type" == some (.str "assistant")
      && truthyOpt (optGet (getField msg "message") "content") then
    match optGet (getField msg "message") "content" with
    | none => ([], none)
    | some content =>
      match iterElems content with
      | some blocks => classifyBlocks blocks
      | none => ([], some "TypeError: msg.message.content is not iterable")
  else if getField msg "type" == some (.str "tool_use_summary")
      && truthyOpt (getField msg "summary") then
    match getField msg "summary" with
    | some s => ([.summary s], none)
    | none => ([], none)
  else if getField msg "type" == some (.str "tool_progress")
      && truthyOpt (getField msg "tool_name") then
    match getField msg "tool_name" with
    | some t => ([.toolProgress t (getField msg "elapsed_time_seconds")], none)
    | none => ([], none)
  else
    ([], none)

/-! ## The relay run: traces of the streaming section of the handler

The streaming part of the handler (`server.js` lines 138-229) is modelled as
a function from the upstream outcome to a trace of observable actions.  The
upstream outcome of `runMovieAgent` is a list of yielded messages `msgs`
plus `exn : Option String`: `some m` means the iteration raises (with
`err.message = m`) after the listed messages, `none` means it is exhausted
normally.  The client connection is modelled by `conn : Option Nat`:
`none` means the client never disconnects, `some k` means the next `k`
`res.write` data frames succeed and every later one throws (the client has
disconnected); the `try`/`catch` inside `send` swallows that throw. -/

/-- One observable action of the handler. -/
inductive Act where
  | setInterval
  | write (e : Event)
  | writeFail (e : Event)
  | clearInterval
  | endResponse
deriving DecidableEq

/-- Mutable state threaded through the handler: the trace so far and the
remaining write budget of the connection. -/
structure RunState where
  trace : List Act
  conn : Option Nat

/-- The `send` helper (`server.js` lines 145-151): `res.write` inside
`try { } catch { /* client disconnected */ }`. -/
def sendEv (e : Event) (st : RunState) : RunState :=
  match st.conn with
  | none => { trace := st.trace ++ [.write e], conn := none }
  | some 0 => { trace := st.trace ++ [.writeFail e], conn := some 0 }
  | some (k + 1) => { trace := st.trace ++ [.write e], conn := some k }

/-- Send a list of events in order. -/
def sendAll (evs : List Event) (st : RunState) : RunState :=
  evs.foldl (fun s e => sendEv e s) st

/-- The `for await` loop: classify each message, send its events; a raised
exception (from the classifier or, via `exn`, from the upstream iterator)
aborts the loop and is returned to the enclosing `try`. -/
def processMsgs : List JVal → RunState → RunState × Option String
  | [], st => (st, none)
  | m :: ms, st =>
    match classifyMsg m with
    | (evs, some e) => (sendAll evs st, some e)
    | (evs, none) => processMsgs ms (sendAll evs st)

/-- `err.message || 'An unexpected error occurred'`. -/
def jsErrMessage (m : String) : String :=
  if m != "" then m else "An unexpected error occurred"

/-- The `start` event's message text. -/
def startMessage : String := "Starting deep research into your movie taste..."

/-- The streaming section of the handler, `server.js` lines 153-229:
start the heartbeat interval, `send({type:'start',...})`, run the loop,
`send({type:'done'})` on normal completion, `catch` sends an `error` event,
`finally` clears the interval and ends the response. -/
def runStream (msgs : List JVal) (exn : Option String) (conn : Option Nat) :
    List Act :=
  let st0 : RunState := { trace := [.setInterval], conn := conn }
  let st1 := sendEv (.start startMessage) st0
  match processMsgs msgs st1 with
  | (st2, some m) =>
    (sendEv (.error (jsErrMessage m)) st2).trace ++ [.clearInterval, .endResponse]
  | (st2, none) =>
    match exn with
    | some m =>
      (sendEv (.error (jsErrMessage m)) st2).trace ++ [.clearInterval, .endResponse]
    | none =>
      (sendEv .done st2).trace ++ [.clearInterval, .endResponse]

/-- The Client Events successfully written, in order (the `data:` frames the
connected client observes). -/
def clientEvents (tr : List Act) : List Event :=
  tr.filterMap fun a =>
    match a with
    | .write e => some e
    | _ => none

/-! ## Pure event semantics of a message list -/

/-- Events produced by a message list, cut short at the first raise. -/
def msgsEvents : List JVal → List Event
  | [] => []
  | m :: ms =>
    match classifyMsg m with
    | (evs, some _) => evs
    | (evs, none) => evs ++ msgsEvents ms

/-- The first exception raised while classifying a message list, if any. -/
def msgsRaise : List JVal → Option String
  | [] => none
  | m :: ms =>
    match (classifyMsg m).2 with
    | some e => some e
    | none => msgsRaise ms

/-- The exception that aborts the streaming loop, if any: the first
classifier raise, else the upstream iterator's own raise. -/
def firstRaise (msgs : List JVal) (exn : Option String) : Option String :=
  match msgsRaise msgs with
  | some m => some m
  | none => exn

/-- The full logical event sequence of a run, disconnects aside. -/
def streamEvents (msgs : List JVal) (exn : Option String) : List Event :=
  .start startMessage :: msgsEvents msgs ++
    (match firstRaise msgs exn with
     | some m => [.error (jsErrMessage m)]
     | none => [.done])

/-- Write actions of an event list over a connection that accepts the next
`k` data frames and then fails every write. -/
def capWrites : Nat → List Event → List Act
  | _, [] => []
  | 0, e :: es => .writeFail e :: capWrites 0 es
  | k + 1, e :: es => .write e :: capWrites k es

/-- Write actions of an event list over a connection that never fails. -/
def capWritesOpt : Option Nat → List Event → List Act
  | none, es => es.map .write
  | some k, es => capWrites k es

/-! ## The request handler around the stream -/

/-- Outcome of one `POST /api/movie-recommendations` request. -/
inductive HandlerResult where
  | badRequest (error : String)
  | serverError (error : String)
  | stream (prefs : JVal) (trace : List Act)
deriving DecidableEq

/-- The whole handler (`server.js` lines 127-230): validation of
`favoriteMovies`, the `ANTHROPIC_API_KEY` check, the `moviePreferences || {}`
default, then the streaming section.  `apiKey` models
`process.env.ANTHROPIC_API_KEY` (`none` = unset; the code's truthiness test
also rejects an empty value). -/
def handlePost (body : JVal) (apiKey : Option String)
    (msgs : List JVal) (exn : Option String) (conn : Option Nat) :
    HandlerResult :=
  let favoriteMovies := getField body "favoriteMovies"
  let favOk : Bool :=
    match favoriteMovies with
    | some (.arr xs) => xs.length != 0
    | _ => false
  if !favOk then
    .badRequest "favoriteMovies must be a non-empty array"
  else if !(match apiKey with | some s => s != "" | none => false) then
    .serverError "ANTHROPIC_API_KEY environment variable is not set"
  else
    .stream (jsOrV (getField body "moviePreferences") (.obj []))
      (runStream msgs exn conn)

/-! ## Derived definitions used in the specifications -/

/-- Remaining write budget after `n` write attempts. -/
def connAfter : Option Nat → Nat → Option Nat
  | none, _ => none
  | some k, n => some (k - n)

/-- An action that is a data-frame write attempt. -/
def isDataWrite : Act → Bool
  | .write _ => true
  | .writeFail _ => true
  | _ => false

/-- The `text` field of a block, when present, is `null` or a string (so
`block.text?.trim()` cannot throw). -/
def textFieldOk (b : JVal) : Bool :=
  match getField b "text" with
  | none => true
  | some .null => true
  | some (.str _) => true
  | some _ => false

/-- The nested fields the loop body calls methods on or iterates have
workable types when present: `errors` absent/null/array, and
`message.content` absent, falsy, a string, or an array of blocks whose
`text` fields are workable. -/
def msgShapeOk (m : JVal) : Bool :=
  (match getField m "errors" with
   | none => true
   | some .null => true
   | some (.arr _) => true
   | some _ => false) &&
  (match optGet (getField m "message") "content" with
   | none => true
   | some (.arr bs) => bs.all textFieldOk
   | some (.str _) => true
   | some v => !truthy v)

/-! ## Trace lemmas -/

lemma connAfter_zero (c : Option Nat) : connAfter c 0 = c := by
  cases c <;> simp [connAfter]

lemma connAfter_connAfter (c : Option Nat) (m n : Nat) :
    connAfter (connAfter c m) n = connAfter c (m + n) := by
  cases c <;> simp [connAfter, Nat.sub_sub]

lemma capWrites_nil (k : Nat) : capWrites k [] = [] := by
  cases k <;> rfl

lemma capWrites_append (a b : List Event) :
    ∀ k, capWrites k (a ++ b) = capWrites k a ++ capWrites (k - a.length) b := by
  induction a with
  | nil => intro k; simp [capWrites_nil]
  | cons e es ih =>
    intro k
    cases k with
    | zero => simp [capWrites, ih 0]
    | succ k => simp [capWrites, ih k, Nat.succ_sub_succ]

lemma capWritesOpt_nil (c : Option Nat) : capWritesOpt c [] = [] := by
  cases c <;> simp [capWritesOpt, capWrites_nil]

lemma capWritesOpt_append (c : Option Nat) (a b : List Event) :
    capWritesOpt c (a ++ b) =
      capWritesOpt c a ++ capWritesOpt (connAfter c a.length) b := by
  cases c <;> simp [capWritesOpt, connAfter, capWrites_append]

lemma sendEv_eq (e : Event) (t : List Act) (c : Option Nat) :
    sendEv e ⟨t, c⟩ = ⟨t ++ capWritesOpt c [e], connAfter c 1⟩ := by
  cases c with
  | none => rfl
  | some k => cases k <;> simp [sendEv, capWritesOpt, capWrites, capWrites_nil, connAfter]

lemma sendAll_eq (evs : List Event) :
    ∀ (t : List Act) (c : Option Nat),
      sendAll evs ⟨t, c⟩ = ⟨t ++ capWritesOpt c evs, connAfter c evs.length⟩ := by
  induction evs with
  | nil => intro t c; simp [sendAll, capWritesOpt_nil, connAfter_zero]
  | cons e es ih =>
    intro t c
    have h1 : sendAll (e :: es) ⟨t, c⟩ = sendAll es (sendEv e ⟨t, c⟩) := rfl
    rw [h1, sendEv_eq, ih, connAfter_connAfter]
    have h2 : (e :: es) = [e] ++ es := rfl
    rw [h2, capWritesOpt_append]
    simp [Nat.add_comm]

lemma processMsgs_eq (msgs : List JVal) :
    ∀ (t : List Act) (c : Option Nat),
      processMsgs msgs ⟨t, c⟩ =
        (⟨t ++ capWritesOpt c (msgsEvents msgs),
          connAfter c (msgsEvents msgs).length⟩, msgsRaise msgs) := by
  induction msgs with
  | nil =>
    intro t c
    simp [processMsgs, msgsEvents, msgsRaise, capWritesOpt_nil, connAfter_zero]
  | cons m ms ih =>
    intro t c
    rcases h : classifyMsg m with ⟨evs, e⟩
    cases e with
    | some err =>
      simp only [processMsgs, msgsEvents, msgsRaise, h]
      rw [sendAll_eq]
    | none =>
      simp only [processMsgs, msgsEvents, msgsRaise, h]
      rw [sendAll_eq, ih, capWritesOpt_append, connAfter_connAfter]
      simp

lemma runStream_eq (msgs : List JVal) (exn : Option String) (c : Option Nat) :
    runStream msgs exn c =
      .setInterval :: capWritesOpt c (streamEvents msgs exn) ++
        [.clearInterval, .endResponse] := by
  have hstart : (Event.start startMessage :: msgsEvents msgs) =
      [Event.start startMessage] ++ msgsEvents msgs := rfl
  unfold runStream
  dsimp only
  rw [sendEv_eq, processMsgs_eq]
  cases hr : msgsRaise msgs with
  | some m =>
    simp only [streamEvents, firstRaise, hr]
    rw [sendEv_eq, hstart]
    rw [capWritesOpt_append, capWritesOpt_append, connAfter_connAfter]
    simp [Nat.add_comm]
  | none =>
    cases exn with
    | some m =>
      simp only [streamEvents, firstRaise, hr]
      rw [sendEv_eq, hstart]
      rw [capWritesOpt_append, capWritesOpt_append, connAfter_connAfter]
      simp [Nat.add_comm]
    | none =>
      simp only [streamEvents, firstRaise, hr]
      rw [sendEv_eq, hstart]
      rw [capWritesOpt_append, capWritesOpt_append, connAfter_connAfter]
      simp [Nat.add_comm]

lemma clientEvents_append (a b : List Act) :
    clientEvents (a ++ b) = clientEvents a ++ clientEvents b := by
  simp [clientEvents]

lemma clientEvents_map_write (es : List Event) :
    clientEvents (es.map .write) = es := by
  induction es with
  | nil => rfl
  | cons e es ih => simpa [clientEvents] using ih

lemma clientEvents_capWrites (es : List Event) :
    ∀ k, clientEvents (capWrites k es) = es.take k := by
  induction es with
  | nil => intro k; simp [capWrites_nil, clientEvents]
  | cons e es ih =>
    intro k
    cases k with
    | zero =>
      have h0 : clientEvents (capWrites 0 es) = [] := by simpa using ih 0
      simpa [capWrites, clientEvents] using h0
    | succ k =>
      have h1 : clientEvents (capWrites (k + 1) (e :: es)) =
          e :: clientEvents (capWrites k es) := by
        simp [capWrites, clientEvents]
      rw [h1, ih k]
      rfl

lemma length_capWrites (es : List Event) :
    ∀ k, (capWrites k es).length = es.length := by
  induction es with
  | nil => intro k; simp [capWrites_nil]
  | cons e es ih => intro k; cases k <;> simp [capWrites, ih]

lemma clientEvents_shape (ws : List Act) :
    clientEvents (.setInterval :: ws ++ [.clearInterval, .endResponse]) =
      clientEvents ws := by
  show clientEvents ([Act.setInterval] ++ (ws ++ [Act.clearInterval, Act.endResponse])) = _
  rw [clientEvents_append, clientEvents_append]
  have h1 : clientEvents [Act.setInterval] = [] := rfl
  have h2 : clientEvents [Act.clearInterval, Act.endResponse] = [] := rfl
  rw [h1, h2]
  simp

lemma clientEvents_runStream (msgs : List JVal) (exn : Option String) :
    clientEvents (runStream msgs exn none) = streamEvents msgs exn := by
  rw [runStream_eq, clientEvents_shape]
  have h : capWritesOpt none (streamEvents msgs exn) =
      (streamEvents msgs exn).map .write := rfl
  rw [h, clientEvents_map_write]

lemma clientEvents_runStream_cap (msgs : List JVal) (exn : Option String) (k : Nat) :
    clientEvents (runStream msgs exn (some k)) = (streamEvents msgs exn).take k := by
  rw [runStream_eq, clientEvents_shape]
  have h : capWritesOpt (some k) (streamEvents msgs exn) =
      capWrites k (streamEvents msgs exn) := rfl
  rw [h, clientEvents_capWrites]

/-! ## Classifier lemmas -/

lemma classifyBlock_done_not_mem (b : JVal) : Event.done ∉ (classifyBlock b).1 := by
  unfold classifyBlock
  repeat' split
  all_goals simp_all

lemma classifyBlocks_done_not_mem (bs : List JVal) :
    Event.done ∉ (classifyBlocks bs).1 := by
  induction bs with
  | nil => simp [classifyBlocks]
  | cons b bs ih =>
    have hb := classifyBlock_done_not_mem b
    rcases h : classifyBlock b with ⟨evs, e⟩
    rw [h] at hb
    cases e with
    | some err => simpa [classifyBlocks, h] using hb
    | none =>
      simp [classifyBlocks, h]
      exact ⟨hb, ih⟩

lemma classifyMsg_done_not_mem (m : JVal) : Event.done ∉ (classifyMsg m).1 := by
  unfold classifyMsg
  repeat' split
  all_goals simp_all [classifyBlocks_done_not_mem]

lemma msgsEvents_done_not_mem (msgs : List JVal) :
    Event.done ∉ msgsEvents msgs := by
  induction msgs with
  | nil => simp [msgsEvents]
  | cons m ms ih =>
    have hm := classifyMsg_done_not_mem m
    rcases h : classifyMsg m with ⟨evs, e⟩
    rw [h] at hm
    cases e with
    | some err => simpa [msgsEvents, h] using hm
    | none =>
      simp [msgsEvents, h]
      exact ⟨hm, ih⟩

lemma capWritesOpt_all_data (c : Option Nat) (es : List Event) :
    ∀ a ∈ capWritesOpt c es, isDataWrite a = true := by
  cases c with
  | none =>
    intro a ha
    simp [capWritesOpt] at ha
    obtain ⟨e, _, rfl⟩ := ha
    rfl
  | some k =>
    induction es generalizing k with
    | nil => intro a ha; simp [capWritesOpt, capWrites_nil] at ha
    | cons e es ih =>
      intro a ha
      cases k with
      | zero =>
        simp [capWritesOpt, capWrites] at ha
        rcases ha with rfl | ha
        · rfl
        · exact ih 0 a (by simpa [capWritesOpt] using ha)
      | succ k =>
        simp [capWritesOpt, capWrites] at ha
        rcases ha with rfl | ha
        · rfl
        · exact ih k a (by simpa [capWritesOpt] using ha)

lemma not_mem_of_all_data {ws : List Act} (h : ∀ a ∈ ws, isDataWrite a = true) :
    Act.setInterval ∉ ws ∧ Act.clearInterval ∉ ws := by
  constructor
  · intro hmem
    have := h _ hmem
    simp [isDataWrite] at this
  · intro hmem
    have := h _ hmem
    simp [isDataWrite] at this

lemma trace_getLast (ws : List Act) :
    (Act.setInterval :: ws ++ [Act.clearInterval, Act.endResponse]).getLast? =
      some .endResponse := by
  have h : Act.setInterval :: ws ++ [Act.clearInterval, Act.endResponse] =
      (Act.setInterval :: ws ++ [Act.clearInterval]) ++ [Act.endResponse] := by simp
  rw [h, List.getLast?_concat]

lemma classifyMsg_result_success (v : JVal) :
    classifyMsg (.obj [("type", .str "result"), ("subtype", .str "success"),
      ("result", v)]) = ([.result (some v)], none) := by
  simp [classifyMsg, getField, List.lookup, truthy, jsTypeofObject]

lemma classifyMsg_result_failure (sub : JVal) (es : List JVal)
    (h : sub ≠ .str "success") :
    classifyMsg (.obj [("type", .str "result"), ("subtype", sub),
      ("errors", .arr es)]) =
      ([.error (if jsJoin "; " es != "" then jsJoin "; " es
                else "Research encountered an error")], none) := by
  simp [classifyMsg, getField, List.lookup, truthy, jsTypeofObject, h]

lemma classifyMsg_result_failure_noErrors (sub : JVal) (h : sub ≠ .str "success") :
    classifyMsg (.obj [("type", .str "result"), ("subtype", sub)]) =
      ([.error "Research encountered an error"], none) := by
  simp [classifyMsg, getField, List.lookup, truthy, jsTypeofObject, h]

lemma classifyMsg_assistant (blocks : List JVal) :
    classifyMsg (.obj [("type", .str "assistant"),
      ("message", .obj [("content", .arr blocks)])]) = classifyBlocks blocks := by
  simp [classifyMsg, getField, List.lookup, optGet, truthyOpt, truthy,
    jsTypeofObject, iterElems]

lemma classifyBlock_search (i : JVal) :
    classifyBlock (.obj [("type", .str "tool_use"), ("name", .str "WebSearch"),
      ("input", i)]) =
      ([.search (jsOrV (optGet (some i) "query")
        (jsOrV (optGet (some i) "q") (.str "")))], none) := by
  simp [classifyBlock, getField, List.lookup, truthy, jsTypeofObject]

lemma classifyBlock_fetch (i : JVal) :
    classifyBlock (.obj [("type", .str "tool_use"), ("name", .str "WebFetch"),
      ("input", i)]) =
      ([.fetch (jsOrV (optGet (some i) "url") (.str ""))], none) := by
  simp [classifyBlock, getField, List.lookup, truthy, jsTypeofObject]

lemma classifyBlock_other_tool (name i : JVal)
    (h1 : name ≠ .str "WebSearch") (h2 : name ≠ .str "WebFetch") :
    classifyBlock (.obj [("type", .str "tool_use"), ("name", name),
      ("input", i)]) = ([], none) := by
  simp [classifyBlock, getField, List.lookup, truthy, jsTypeofObject, h1, h2]

lemma classifyBlocks_cons_ok (b : JVal) (bs : List JVal)
    (h : (classifyBlock b).2 = none) :
    classifyBlocks (b :: bs) =
      ((classifyBlock b).1 ++ (classifyBlocks bs).1, (classifyBlocks bs).2) := by
  rcases hb : classifyBlock b with ⟨evs, e⟩
  rw [hb] at h
  subst h
  simp [classifyBlocks, hb]

lemma classifyBlock_text (s : String) :
    classifyBlock (.obj [("type", .str "text"), ("text", .str s)]) =
      (if 0 < (jsTrim s).length ∧ (jsTrim s).length < 500
       then ([.thinking (jsTrim s)], none) else ([], none)) := by
  have hempty : (jsTrim s = "") ↔ (jsTrim s).length = 0 := by
    constructor
    · intro h; rw [h]; rfl
    · intro h
      cases hq : jsTrim s with
      | mk data =>
        rw [hq] at h
        cases data with
        | nil => rfl
        | cons c cs => simp [String.length] at h
  by_cases h : jsTrim s = ""
  · have h0 : (jsTrim s).length = 0 := hempty.mp h
    simp [classifyBlock, getField, List.lookup, truthy, jsTypeofObject, h, h0]
  · have hpos : 0 < (jsTrim s).length := by
      rcases Nat.eq_zero_or_pos (jsTrim s).length with h0 | h0
      · exact absurd (hempty.mpr h0) h
      · exact h0
    by_cases h5 : (jsTrim s).length < 500
    · simp [classifyBlock, getField, List.lookup, truthy, jsTypeofObject, h,
        hpos, h5]
    · simp [classifyBlock, getField, List.lookup, truthy, jsTypeofObject, h,
        hpos, h5]

lemma classifyBlock_search_qfields (a b : JVal) :
    classifyBlock (.obj [("type", .str "tool_use"), ("name", .str "WebSearch"),
      ("input", .obj [("query", a), ("q", b)])]) =
      ([.search (if truthy a then a else if truthy b then b else .str "")],
        none) := by
  rw [classifyBlock_search]
  by_cases ha : truthy a
  · simp [optGet, getField, List.lookup, jsOrV, ha]
  · by_cases hb : truthy b <;>
      simp [optGet, getField, List.lookup, jsOrV, ha, hb]

lemma classifyBlock_noRaise (b : JVal) (h : textFieldOk b = true) :
    (classifyBlock b).2 = none := by
  unfold textFieldOk at h
  unfold classifyBlock
  repeat' split
  all_goals simp_all

lemma classifyBlocks_noRaise (bs : List JVal) (h : bs.all textFieldOk = true) :
    (classifyBlocks bs).2 = none := by
  induction bs with
  | nil => rfl
  | cons b bs ih =>
    rw [List.all_cons, Bool.and_eq_true] at h
    have hb := classifyBlock_noRaise b h.1
    rcases hc : classifyBlock b with ⟨evs, e⟩
    rw [hc] at hb
    subst hb
    simp [classifyBlocks, hc, ih h.2]

lemma charBlocks_textFieldOk (s : String) :
    (s.data.map fun c => JVal.str (String.singleton c)).all textFieldOk = true := by
  rw [List.all_eq_true]
  intro x hx
  rw [List.mem_map] at hx
  obtain ⟨c, _, rfl⟩ := hx
  rfl

lemma classifyMsg_noRaise (m : JVal) (h : msgShapeOk m = true) :
    (classifyMsg m).2 = none := by
  unfold msgShapeOk at h
  rw [Bool.and_eq_true] at h
  obtain ⟨he, hc⟩ := h
  unfold classifyMsg
  repeat' split
  all_goals simp_all
  · rename_i contentOpt v iterOpt blocks hobj hguard hcontent hiter
    cases v <;>
      simp_all [iterElems, truthyOpt, truthy, classifyBlocks_noRaise,
        charBlocks_textFieldOk]
    subst hiter
    exact classifyBlocks_noRaise _ (charBlocks_textFieldOk _)
  · rename_i contentOpt v iterOpt hobj hguard hcontent hiter
    cases v <;> simp_all [iterElems, truthyOpt, truthy]

lemma classifyMsg_not_object (m : JVal)
    (h : (truthy m && jsTypeofObject m) = false) : classifyMsg m = ([], none) := by
  unfold classifyMsg
  rw [h]
  simp

lemma classifyMsg_unrecognized (m : JVal)
    (h : ∀ t, getField m "type" = some t →
      t ∉ ([.str "result", .str "assistant", .str "tool_use_summary",
            .str "tool_progress"] : List JVal)) :
    classifyMsg m = ([], none) := by
  unfold classifyMsg
  cases hg : getField m "type" with
  | none => simp [hg]
  | some t =>
    have ht := h t hg
    simp only [List.mem_cons, List.mem_singleton] at ht
    push_neg at ht
    obtain ⟨h1, h2, h3, h4⟩ := ht
    simp [hg, h1, h2, h3, h4]

lemma msgs_split (a b : List JVal) (h : msgsRaise a = none) :
    msgsEvents (a ++ b) = msgsEvents a ++ msgsEvents b ∧
    msgsRaise (a ++ b) = msgsRaise b := by
  induction a with
  | nil => simp [msgsEvents, msgsRaise]
  | cons m ms ih =>
    rw [msgsRaise] at h
    rcases hc : classifyMsg m with ⟨evs, e⟩
    rw [hc] at h
    cases e with
    | some err => simp at h
    | none =>
      simp only at h
      obtain ⟨ihe, ihr⟩ := ih h
      constructor
      · simp [List.cons_append, msgsEvents, hc, ihe]
      · simp [List.cons_append, msgsRaise, hc, ihr]

/-! ## Claims -/

/-- C1 (counterexample): when the upstream iteration raises (here with
message `"boom"`), the handler's `catch` writes an `error` event but the
stream is NOT terminated with a `done` event — the `send({type:'done'})`
call is inside the `try`, before the `catch`, so it is skipped. -/
theorem c1_exception_skips_done :
    clientEvents (runStream [] (some "boom") none) =
      [.start startMessage, .error "boom"] ∧
    Event.done ∉ clientEvents (runStream [] (some "boom") none) := by
  decide

/-- C1 (amended): once streaming has begun and the client stays connected,
a run in which neither the classifier nor the upstream iterator raises ends
with exactly one `done` event, preceded by exactly the events classified
from the upstream messages (one `result`/`error` per `final-result`
message); a run in which an exception is raised ends with an `error` event
carrying the exception's message and contains no `done` event at all. -/
theorem c1_terminal_event_shape (msgs : List JVal) (exn : Option String) :
    (firstRaise msgs exn = none →
      clientEvents (runStream msgs exn none) =
        .start startMessage :: msgsEvents msgs ++ [.done] ∧
      (clientEvents (runStream msgs exn none)).count .done = 1) ∧
    (∀ m, firstRaise msgs exn = some m →
      (clientEvents (runStream msgs exn none)).count .done = 0 ∧
      (clientEvents (runStream msgs exn none)).getLast? =
        some (.error (jsErrMessage m))) := by
  have h0 : (msgsEvents msgs).count Event.done = 0 :=
    List.count_eq_zero.mpr (msgsEvents_done_not_mem msgs)
  constructor
  · intro h
    rw [clientEvents_runStream]
    constructor
    · simp [streamEvents, h]
    · simp [streamEvents, h, List.count_cons, List.count_append, h0]
  · intro m h
    rw [clientEvents_runStream]
    constructor
    · simp [streamEvents, h, List.count_cons, List.count_append, h0]
    · have hsh : streamEvents msgs exn =
          (Event.start startMessage :: msgsEvents msgs) ++
            [Event.error (jsErrMessage m)] := by
        simp [streamEvents, h]
      rw [hsh, List.getLast?_concat]

/-- C1 (witness): both cases of `c1_terminal_event_shape` at concrete
inputs: the empty upstream sequence without an exception, and with one. -/
theorem c1_terminal_event_shape_witness :
    (clientEvents (runStream [] none none) =
        .start startMessage :: msgsEvents [] ++ [.done] ∧
      (clientEvents (runStream [] none none)).count .done = 1) ∧
    ((clientEvents (runStream [] (some "boom") none)).count .done = 0 ∧
      (clientEvents (runStream [] (some "boom") none)).getLast? =
        some (.error (jsErrMessage "boom"))) :=
  ⟨(c1_terminal_event_shape [] none).1 rfl,
   (c1_terminal_event_shape [] (some "boom")).2 "boom" rfl⟩

/-- C2: on every run — success, upstream error list, raised exception, or
client disconnect after any number of writes — the trace starts the
heartbeat interval exactly once as its first action, every action in
between is a data-frame write attempt, and the interval is cleared exactly
once, immediately before the response is ended; so after the terminal state
no timer remains active and no further frames can be produced. -/
theorem c2_heartbeat_lifecycle (msgs : List JVal) (exn : Option String)
    (conn : Option Nat) :
    ∃ ws : List Act,
      runStream msgs exn conn =
        .setInterval :: ws ++ [.clearInterval, .endResponse] ∧
      (∀ a ∈ ws, isDataWrite a = true) ∧
      (runStream msgs exn conn).count .setInterval = 1 ∧
      (runStream msgs exn conn).count .clearInterval = 1 := by
  refine ⟨capWritesOpt conn (streamEvents msgs exn), runStream_eq msgs exn conn,
    capWritesOpt_all_data conn (streamEvents msgs exn), ?_, ?_⟩ <;>
  · rw [runStream_eq]
    obtain ⟨h1, h2⟩ := not_mem_of_all_data
      (capWritesOpt_all_data conn (streamEvents msgs exn))
    simp [List.count_cons, List.count_append, List.count_eq_zero.mpr h1,
      List.count_eq_zero.mpr h2]

/-- C3 (counterexample): classification is not total — an `assistant`
message whose `text` block carries the number `42` (truthy but not a
string) makes `block.text?.trim()` throw a `TypeError` instead of
degrading to "no event". -/
theorem c3_classifier_can_raise :
    (classifyMsg (.obj [("type", .str "assistant"),
      ("message", .obj [("content", .arr [.obj [("type", .str "text"),
        ("text", .num 42)]])])])).2.isSome = true := by
  decide

/-- C3 (amended): classification never raises on messages whose relevant
nested fields, when present, have workable types (`msgShapeOk`); non-object
messages and messages whose kind is missing or unrecognized always produce
no event and never raise; but wrongly-typed nested fields in recognized
kinds (for example a truthy non-string `text`, a non-array `errors`) can
make it throw. -/
theorem c3_classifier_totality_scope (m : JVal) :
    (msgShapeOk m = true → (classifyMsg m).2 = none) ∧
    ((truthy m && jsTypeofObject m) = false → classifyMsg m = ([], none)) ∧
    ((∀ t, getField m "type" = some t →
        t ∉ ([.str "result", .str "assistant", .str "tool_use_summary",
              .str "tool_progress"] : List JVal)) →
      classifyMsg m = ([], none)) :=
  ⟨classifyMsg_noRaise m, classifyMsg_not_object m, classifyMsg_unrecognized m⟩

/-- C3 (witness): all three parts of `c3_classifier_totality_scope` at
concrete messages. -/
theorem c3_classifier_totality_scope_witness :
    (classifyMsg (.obj [("type", .str "result"), ("subtype", .str "success"),
        ("result", .str "ok")])).2 = none ∧
    classifyMsg (.str "not an object") = ([], none) ∧
    classifyMsg (.obj [("type", .str "system")]) = ([], none) :=
  ⟨(c3_classifier_totality_scope _).1 (by decide),
   (c3_classifier_totality_scope _).2.1 (by decide),
   (c3_classifier_totality_scope (.obj [("type", .str "system")])).2.2
     (by intro t ht; simp [getField, List.lookup] at ht; subst ht; decide)⟩

/-- C4: when the client disconnects after `k` successful data writes, the
events actually delivered are exactly the first `k` of the full run's
events (every later write fails and is swallowed), the trace has the same
length as the undisturbed run (upstream consumption continues through the
whole sequence), and cleanup still ends the response — the process never
crashes on a write failure. -/
theorem c4_write_failure_swallowed (msgs : List JVal) (exn : Option String)
    (k : Nat) :
    clientEvents (runStream msgs exn (some k)) =
      (clientEvents (runStream msgs exn none)).take k ∧
    (runStream msgs exn (some k)).length = (runStream msgs exn none).length ∧
    (runStream msgs exn (some k)).getLast? = some .endResponse := by
  refine ⟨?_, ?_, ?_⟩
  · rw [clientEvents_runStream_cap, clientEvents_runStream]
  · rw [runStream_eq, runStream_eq]
    simp [capWritesOpt, length_capWrites]
  · rw [runStream_eq]
    exact trace_getLast _

/-- C5 (counterexample): a `final-result` failure whose error sequence is
the non-empty list `[""]` still produces the fixed fallback message,
because the code tests the truthiness of the joined string, not emptiness
of the sequence — refuting "the fallback is used exactly when the sequence
is empty". -/
theorem c5_fallback_on_blank_error :
    classifyMsg (.obj [("type", .str "result"), ("subtype", .str "error"),
      ("errors", .arr [.str ""])]) =
      ([.error "Research encountered an error"], none) ∧
    jsJoin "; " [.str ""] = "" ∧
    ([JVal.str ""] : List JVal) ≠ [] := by
  decide

/-- C5 (amended): classifying a `final-result` message yields, on success,
a `result` event whose content is the payload verbatim; on failure, an
`error` event whose message is the error descriptions joined by `"; "` when
that joined string is non-empty, and the fixed fallback
`"Research encountered an error"` when the joined string is empty (which
happens when the sequence is empty or absent, and also when its rendering
is blank, e.g. a single empty-string description). -/
theorem c5_final_result_classification (v sub : JVal) (es : List JVal) :
    (classifyMsg (.obj [("type", .str "result"), ("subtype", .str "success"),
        ("result", v)]) = ([.result (some v)], none)) ∧
    (sub ≠ .str "success" →
      classifyMsg (.obj [("type", .str "result"), ("subtype", sub),
        ("errors", .arr es)]) =
        ([.error (if jsJoin "; " es != "" then jsJoin "; " es
                  else "Research encountered an error")], none)) ∧
    (sub ≠ .str "success" →
      classifyMsg (.obj [("type", .str "result"), ("subtype", sub)]) =
        ([.error "Research encountered an error"], none)) :=
  ⟨classifyMsg_result_success v,
   fun h => classifyMsg_result_failure sub es h,
   fun h => classifyMsg_result_failure_noErrors sub h⟩

/-- C5 (witness): the failure branch of `c5_final_result_classification` at
a concrete subtype and error list. -/
theorem c5_final_result_classification_witness :
    (JVal.str "error_during_execution" ≠ .str "success") ∧
    classifyMsg (.obj [("type", .str "result"),
      ("subtype", .str "error_during_execution"),
      ("errors", .arr [.str "timeout", .str "rate limited"])]) =
      ([.error "timeout; rate limited"], none) := by
  refine ⟨by decide, ?_⟩
  rw [(c5_final_result_classification .null (.str "error_during_execution")
    [.str "timeout", .str "rate limited"]).2.1 (by decide)]
  decide

/-- C6: an `assistant` message with an array content is classified
block-by-block, and a `text` block yields a `thinking` event carrying the
trimmed text exactly when the trimmed length is strictly between 0 and 500
characters — in particular, nothing is emitted at trimmed length 500 or
more. -/
theorem c6_thinking_threshold (blocks : List JVal) (s : String) :
    (classifyMsg (.obj [("type", .str "assistant"),
        ("message", .obj [("content", .arr blocks)])]) =
      classifyBlocks blocks) ∧
    (classifyBlock (.obj [("type", .str "text"), ("text", .str s)]) =
      if 0 < (jsTrim s).length ∧ (jsTrim s).length < 500
      then ([.thinking (jsTrim s)], none) else ([], none)) :=
  ⟨classifyMsg_assistant blocks, classifyBlock_text s⟩

/-- C7: a `tool-invocation` block named `WebSearch` yields a `search` event
with query `input.query || input.q || ''`; one named `WebFetch` yields a
`fetch` event with url `input.url || ''`; any other tool name yields no
event; and blocks are processed in order, each contributing its events
before the next block's (so one assistant turn yields zero, one, or many
events in block order). -/
theorem c7_tool_invocation_classification (i name b : JVal) (bs : List JVal) :
    (classifyBlock (.obj [("type", .str "tool_use"),
        ("name", .str "WebSearch"), ("input", i)]) =
      ([.search (jsOrV (optGet (some i) "query")
        (jsOrV (optGet (some i) "q") (.str "")))], none)) ∧
    (classifyBlock (.obj [("type", .str "tool_use"),
        ("name", .str "WebFetch"), ("input", i)]) =
      ([.fetch (jsOrV (optGet (some i) "url") (.str ""))], none)) ∧
    (name ≠ .str "WebSearch" → name ≠ .str "WebFetch" →
      classifyBlock (.obj [("type", .str "tool_use"), ("name", name),
        ("input", i)]) = ([], none)) ∧
    ((classifyBlock b).2 = none →
      classifyBlocks (b :: bs) =
        ((classifyBlock b).1 ++ (classifyBlocks bs).1, (classifyBlocks bs).2)) :=
  ⟨classifyBlock_search i, classifyBlock_fetch i,
   fun h1 h2 => classifyBlock_other_tool name i h1 h2,
   fun h => classifyBlocks_cons_ok b bs h⟩

/-- C7 (witness): the unrecognized-tool and block-ordering parts of
`c7_tool_invocation_classification` at concrete inputs. -/
theorem c7_tool_invocation_classification_witness :
    classifyBlock (.obj [("type", .str "tool_use"), ("name", .str "Bash"),
      ("input", .obj [])]) = ([], none) ∧
    classifyBlocks [JVal.obj [("type", .str "tool_use"),
        ("name", .str "WebSearch"), ("input", .obj [("query", .str "a")])],
      .obj [("type", .str "tool_use"), ("name", .str "WebFetch"),
        ("input", .obj [("url", .str "b")])]] =
      ([.search (.str "a"), .fetch (.str "b")], none) := by
  refine ⟨(c7_tool_invocation_classification (.obj []) (.str "Bash") .null
    []).2.2.1 (by decide) (by decide), ?_⟩
  rw [(c7_tool_invocation_classification .null .null
    (.obj [("type", .str "tool_use"), ("name", .str "WebSearch"),
      ("input", .obj [("query", .str "a")])])
    [.obj [("type", .str "tool_use"), ("name", .str "WebFetch"),
      ("input", .obj [("url", .str "b")])]]).2.2.2 (by decide)]
  decide

/-- C8: request validation is decided before any stream output exists: a
body whose `favoriteMovies` is not a non-empty array yields the 400 result
with its error object; a valid body with the API key unset (or empty, which
the truthiness test also rejects) yields the 500 result; and a valid
request with no `moviePreferences` field streams with the preferences
defaulted to the empty object. -/
theorem c8_prestream_validation (body : JVal) (apiKey : Option String)
    (msgs : List JVal) (exn : Option String) (conn : Option Nat) :
    ((∀ xs, getField body "favoriteMovies" = some (.arr xs) → xs = []) →
      handlePost body apiKey msgs exn conn =
        .badRequest "favoriteMovies must be a non-empty array") ∧
    (∀ xs, getField body "favoriteMovies" = some (.arr xs) → xs ≠ [] →
      (apiKey = none ∨ apiKey = some "") →
      handlePost body apiKey msgs exn conn =
        .serverError "ANTHROPIC_API_KEY environment variable is not set") ∧
    (∀ xs s, getField body "favoriteMovies" = some (.arr xs) → xs ≠ [] →
      apiKey = some s → s ≠ "" → getField body "moviePreferences" = none →
      handlePost body apiKey msgs exn conn =
        .stream (.obj []) (runStream msgs exn conn)) := by
  refine ⟨?_, ?_, ?_⟩
  · intro h
    unfold handlePost
    cases hg : getField body "favoriteMovies" with
    | none => simp [hg]
    | some v =>
      cases v with
      | arr xs =>
        have := h xs hg
        subst this
        simp [hg]
      | null => simp [hg]
      | boolean b => simp [hg]
      | num n => simp [hg]
      | str s => simp [hg]
      | obj fs => simp [hg]
  · intro xs hg hne hkey
    unfold handlePost
    rcases hkey with rfl | rfl <;> simp [hg, hne]
  · intro xs s hg hne hkey hs hp
    subst hkey
    unfold handlePost
    simp [hg, hne, hs, hp, jsOrV]

/-- C8 (witness): all three parts of `c8_prestream_validation` at concrete
requests. -/
theorem c8_prestream_validation_witness :
    handlePost (.obj [("favoriteMovies", .arr [])]) (some "k") [] none none =
      .badRequest "favoriteMovies must be a non-empty array" ∧
    handlePost (.obj [("favoriteMovies", .arr [.str "Inception"])]) none []
        none none =
      .serverError "ANTHROPIC_API_KEY environment variable is not set" ∧
    handlePost (.obj [("favoriteMovies", .arr [.str "Inception"])]) (some "k")
        [] none none =
      .stream (.obj []) (runStream [] none none) :=
  ⟨(c8_prestream_validation (.obj [("favoriteMovies", .arr [])]) (some "k")
      [] none none).1
      (by intro xs hxs; simp [getField, List.lookup] at hxs; exact hxs),
   (c8_prestream_validation (.obj [("favoriteMovies", .arr [.str "Inception"])])
      none [] none none).2.1 [.str "Inception"] (by decide) (by decide)
      (Or.inl rfl),
   (c8_prestream_validation (.obj [("favoriteMovies", .arr [.str "Inception"])])
      (some "k") [] none none).2.2 [.str "Inception"] "k" (by decide)
      (by decide) rfl (by decide) (by decide)⟩

/-- C9: the relay does not stop at a `final-result` message — for any
surrounding messages that classify without raising, the events of the
messages after the `final-result` appear between its `result` event and the
single trailing `done`, which is emitted only when the upstream sequence is
exhausted. -/
theorem c9_relay_continues_after_result (pre post : List JVal) (v : JVal)
    (h1 : msgsRaise pre = none) (h2 : msgsRaise post = none) :
    clientEvents (runStream
        (pre ++ .obj [("type", .str "result"), ("subtype", .str "success"),
          ("result", v)] :: post) none none) =
      .start startMessage :: msgsEvents pre ++ .result (some v) ::
        (msgsEvents post ++ [.done]) := by
  rw [clientEvents_runStream]
  have hmid : msgsEvents (.obj [("type", .str "result"),
        ("subtype", .str "success"), ("result", v)] :: post) =
      .result (some v) :: msgsEvents post := by
    simp [msgsEvents, classifyMsg_result_success]
  have hmidr : msgsRaise (.obj [("type", .str "result"),
        ("subtype", .str "success"), ("result", v)] :: post) =
      msgsRaise post := by
    simp [msgsRaise, classifyMsg_result_success]
  obtain ⟨he, hr⟩ := msgs_split pre
    (.obj [("type", .str "result"), ("subtype", .str "success"),
      ("result", v)] :: post) h1
  simp [streamEvents, firstRaise, hr, hmidr, h2, he, hmid]

/-- C9 (witness): a run with two `final-result` messages produces two
`result` events, with the second one between the first and `done`. -/
theorem c9_relay_continues_after_result_witness :
    clientEvents (runStream
        ([] ++ .obj [("type", .str "result"), ("subtype", .str "success"),
          ("result", .str "A")] ::
         [JVal.obj [("type", .str "result"), ("subtype", .str "success"),
          ("result", .str "B")]]) none none) =
      [.start startMessage, .result (some (.str "A")),
       .result (some (.str "B")), .done] := by
  rw [c9_relay_continues_after_result []
    [JVal.obj [("type", .str "result"), ("subtype", .str "success"),
      ("result", .str "B")]] (.str "A") rfl (by decide)]
  decide

/-- C10: the `WebSearch` query is chosen by JavaScript falsy fallback over
the `query` and `q` input fields — a present-but-empty `query` counts as
absent and `q` is used instead, and when both are falsy the query is the
empty string. -/
theorem c10_query_falsy_fallback (a b : JVal) :
    (classifyBlock (.obj [("type", .str "tool_use"),
        ("name", .str "WebSearch"),
        ("input", .obj [("query", a), ("q", b)])]) =
      ([.search (if truthy a then a else if truthy b then b else .str "")],
        none)) ∧
    (classifyBlock (.obj [("type", .str "tool_use"),
        ("name", .str "WebSearch"),
        ("input", .obj [("query", .str ""), ("q", .str "films")])]) =
      ([.search (.str "films")], none)) :=
  ⟨classifyBlock_search_qfields a b, by decide⟩
